import Mathlib

/-!
# Verification of the snake-game gameplay core (`src/main.rs`)

Shallow embedding of the gameplay logic of a grid-based snake game:
the data model (`Facing`, `Position`, `Size`, `Grid`), the pure render
transform (`grid_to_real`), and the per-tick systems
(`change_direction_system`, `move_snake_system`, `collide_snake_system`,
`eat_fruit_system`).

Modelling conventions:
* Rust `i32` coordinates are embedded as `Int` (no arithmetic here comes
  near the `i32` range, and overflow wraps identically on both sides of
  every comparison we state).
* Rust `f32` (cell sizes, window sizes) is embedded as `ℚ`: the claims
  about `grid_to_real` concern the algebraic form of the expression, not
  rounding.
* `rand::thread_rng` draws are passed in explicitly: `gen_range` folds an
  arbitrary integer draw into `[0, hi)` with the Euclidean remainder.
* The `panic!("DEAD!")` in `collide_snake_system` is embedded as `none`
  of an `Option GameState`.
* Bevy entities carrying `Position` components are flattened into a
  `GameState` record: the head's position and facing, the list of tail
  segment positions in chain order (`head.0` order), the fruit position
  and the score.
-/

/-- `enum Facing { Up, Down, Left, Right }`. -/
inductive Facing where
  | Up
  | Down
  | Left
  | Right
deriving DecidableEq, Repr

/-- `impl Default for Facing` returns `Facing::Up`. -/
def Facing.default : Facing := Facing.Up

/-- `Facing::opposite`: `Up => Down, Left => Right, Down => Up, Right => Left`. -/
def Facing.opposite : Facing → Facing
  | .Up => .Down
  | .Left => .Right
  | .Down => .Up
  | .Right => .Left

/-- `Facing::is_opposite(self, other) = (self.opposite() == other)`. -/
def Facing.is_opposite (a b : Facing) : Bool :=
  a.opposite = b

/-- The key codes consumed by `Facing::from_key_code`; every other
`bevy::KeyCode` value is collapsed into `Other`, which the `match`'s
wildcard arm sends to `None`. -/
inductive KeyCode where
  | Up
  | Down
  | Left
  | Right
  | W
  | A
  | S
  | D
  | H
  | J
  | K
  | L
  | Other
deriving DecidableEq, Repr

/-- `Facing::from_key_code`:
`Up|W|K => Some(Up)`, `Left|A|H => Some(Left)`, `Down|S|J => Some(Down)`,
`Right|D|L => Some(Right)`, `_ => None`. -/
def Facing.from_key_code : KeyCode → Option Facing
  | .Up | .W | .K => some .Up
  | .Left | .A | .H => some .Left
  | .Down | .S | .J => some .Down
  | .Right | .D | .L => some .Right
  | .Other => none

/-- `struct Size<T> { width: T, height: T }`. -/
structure Size (T : Type) where
  width : T
  height : T
deriving DecidableEq, Repr

/-- `Size::square(val)`. -/
def Size.square {T : Type} (val : T) : Size T :=
  { width := val, height := val }

/-- `struct Position { x: i32, y: i32 }`. -/
structure Position where
  x : Int
  y : Int
deriving DecidableEq, Repr

/-- `Position::new`. -/
def Position.new (x y : Int) : Position :=
  { x := x, y := y }

/-- `Position::in_bounds`:
`self.x >= 0 && self.y >= 0 && self.x < size.width && self.y < size.height`. -/
def Position.in_bounds (p : Position) (size : Size Int) : Bool :=
  decide (p.x ≥ 0) && decide (p.y ≥ 0) && decide (p.x < size.width) && decide (p.y < size.height)

/-- Model of the rand crate's `rng.gen_range(0..hi)` (an external
collaborator, not repository code): an arbitrary draw `r` from the thread
rng, folded into `[0, hi)` by the Euclidean remainder. For `hi > 0` the
result ranges over all of `[0, hi)` as `r` does, matching the library's
contract of a uniform in-range value. -/
def gen_range (r hi : Int) : Int :=
  r % hi

/-- `Position::random(size)`, with the two rng draws made explicit:
`x = gen_range(0..size.width)`, `y = gen_range(0..size.height)`. -/
def Position.random (size : Size Int) (r1 r2 : Int) : Position :=
  { x := gen_range r1 size.width, y := gen_range r2 size.height }

/-- `Position::center(size) = { x: size.width / 2, y: size.height / 2 }`
(Rust `i32` division truncates toward zero; `Int.div` matches). -/
def Position.center (size : Size Int) : Position :=
  { x := Int.tdiv size.width 2, y := Int.tdiv size.height 2 }

/-- `struct Grid { cell_size: f32, size: Size<i32> }`. -/
structure Grid where
  cell_size : ℚ
  size : Size Int
deriving DecidableEq, Repr

/-- `bevy::Vec2`, restricted to the exact rational values produced here. -/
structure Vec2 where
  x : ℚ
  y : ℚ
deriving DecidableEq, Repr

/-- `fn grid_to_real(coord, cell_size, window_size) -> Vec2`. -/
def grid_to_real (coord : Position) (cell_size : Size ℚ) (window_size : Size ℚ) : Vec2 :=
  { x := (-window_size.width + cell_size.width) / 2 + (coord.x : ℚ) * cell_size.width,
    y := (window_size.height - cell_size.height) / 2 - (coord.y : ℚ) * cell_size.height }

/-- The game state touched by the tick systems: the head entity's
`Position` and `Facing`, the `head.0` chain of tail-segment positions in
insertion order (index 0 = adjacent to the head), the fruit's `Position`,
and the `ScoreBoard` counter. -/
structure GameState where
  headPos : Position
  facing : Facing
  tail : List Position
  fruit : Position
  score : Nat
deriving DecidableEq, Repr

/-- The head move in `move_snake_system`:
`Up => y -= 1, Left => x -= 1, Down => y += 1, Right => x += 1`. -/
def move_head (p : Position) : Facing → Position
  | .Up => { p with y := p.y - 1 }
  | .Left => { p with x := p.x - 1 }
  | .Down => { p with y := p.y + 1 }
  | .Right => { p with x := p.x + 1 }

/-- The `for_each` write-back loop in `move_snake_system`: perform the
queued `*positions.get_mut(*tail_seg).unwrap() = *pos` writes in order,
each pair carrying the snapshot value and the chain index of the target
segment. -/
def apply_writes (tail : List Position) (ws : List (Position × Nat)) : List Position :=
  ws.foldl (fun acc pw => acc.set pw.2 pw.1) tail

/-- `fn move_snake_system`: snapshot `tail_positions` of every tail
segment, move the head one cell in the facing direction, then
`tail_positions.iter().zip(head.0.iter().skip(1))` and write each
snapshot value to the zipped segment. (The zip skips the first tail
entity, so chain index `i + 1` receives snapshot index `i`, and index 0
is never written.) -/
def move_snake_system (s : GameState) : GameState :=
  let tail_positions := s.tail
  let newHead := move_head s.headPos s.facing
  let writes := tail_positions.zip ((List.range s.tail.length).drop 1)
  { s with headPos := newHead, tail := apply_writes s.tail writes }

/-- `fn collide_snake_system`: `if !pos.in_bounds(grid.size) { panic!("DEAD!") }`.
`none` is the panic (session over); `some` continues with the state untouched. -/
def collide_snake_system (grid : Grid) (s : GameState) : Option GameState :=
  if s.headPos.in_bounds grid.size then some s else none

/-- `fn eat_fruit_system`: if the fruit's position equals the head's
current position, relocate the fruit to `Position::random(grid.size)`,
increment the scoreboard, and push one tail segment spawned at the
head's current position onto the end of `head.0`. -/
def eat_fruit_system (grid : Grid) (s : GameState) (r1 r2 : Int) : GameState :=
  if s.fruit = s.headPos then
    { s with
      fruit := Position.random grid.size r1 r2,
      score := s.score + 1,
      tail := s.tail ++ [s.headPos] }
  else
    s

/-- `fn change_direction_system`: for each currently pressed key code, in
iteration order, if `Facing::from_key_code` maps it, overwrite the head's
facing with the mapped value; there is no early break. -/
def change_direction_system (pressed : List KeyCode) (facing : Facing) : Facing :=
  pressed.foldl
    (fun f code =>
      match Facing.from_key_code code with
      | some val => val
      | none => f)
    facing

/-! ## Closed form of the tail update in `move_snake_system` -/

/-- Writes whose target indices are all shifted up by one slide past a
cons cell: `apply_writes` on `y :: l` with shifted indices leaves `y`
alone and performs the unshifted writes on `l`. -/
theorem apply_writes_map_succ (ws : List (Position × Nat)) :
    ∀ (y : Position) (l : List Position),
      apply_writes (y :: l) (ws.map (fun pw => (pw.1, pw.2 + 1))) =
        y :: apply_writes l ws := by
  induction ws with
  | nil => intro y l; rfl
  | cons w t ih =>
      intro y l
      simpa [apply_writes] using ih y (l.set w.2 w.1)

/-- `apply_writes` with values `xs` aimed at consecutive indices
`0, 1, …, xs.length - 1` overwrites the prefix of `l` with `xs`. -/
theorem apply_writes_zip_range_zero (xs : List Position) :
    ∀ l : List Position, xs.length ≤ l.length →
      apply_writes l (xs.zip (List.range' 0 xs.length)) = xs ++ l.drop xs.length := by
  induction xs with
  | nil => intro l _; simp [apply_writes]
  | cons x t ih =>
      intro l hlen
      match l with
      | [] => simp at hlen
      | y :: l' =>
          have hrange : List.range' 0 (x :: t).length = 0 :: List.range' 1 t.length := by
            simp [List.range'_succ]
          have hshift : List.range' 1 t.length =
              (List.range' 0 t.length).map (fun n => n + 1) := by
            rw [List.range'_eq_map_range, List.range'_eq_map_range]
            simp [Function.comp, Nat.add_comm]
          have hzip : t.zip (List.range' 1 t.length) =
              (t.zip (List.range' 0 t.length)).map (fun pw => (pw.1, pw.2 + 1)) := by
            rw [hshift, List.zip_map_right]
            rfl
          have hstep : apply_writes (y :: l') ((x :: t).zip (List.range' 0 (x :: t).length)) =
              apply_writes (x :: l') (t.zip (List.range' 1 t.length)) := by
            rw [hrange]
            rfl
          rw [hstep, hzip, apply_writes_map_succ]
          have hlen' : t.length ≤ l'.length := by
            simp at hlen
            omega
          rw [ih l' hlen']
          simp

/-- Zipping ignores the part of the left list beyond the right list's
length. -/
theorem zip_take_left_eq (β : Type) (l2 : List β) :
    ∀ l1 : List Position, l1.zip l2 = (l1.take l2.length).zip l2 := by
  induction l2 with
  | nil => intro l1; simp
  | cons b t ih =>
      intro l1
      match l1 with
      | [] => rfl
      | a :: l1' => simp [ih l1']

/-- Closed form of the tail update performed by `move_snake_system`:
segment 0 keeps its own pre-move position (the zip skips the first
entity and nothing ever writes it), and each segment `i ≥ 1` receives
the pre-move position of segment `i - 1`; as a list, the new chain is
`take 1` of the old chain followed by all but its last element. -/
theorem move_snake_tail_closed_form (s : GameState) :
    (move_snake_system s).tail = s.tail.take 1 ++ s.tail.dropLast := by
  show apply_writes s.tail (s.tail.zip ((List.range s.tail.length).drop 1)) =
    s.tail.take 1 ++ s.tail.dropLast
  match h : s.tail with
  | [] => rfl
  | t0 :: rest =>
      have hn : (t0 :: rest).length = rest.length + 1 := rfl
      have hdrop : (List.range (t0 :: rest).length).drop 1 = List.range' 1 rest.length := by
        rw [List.range_eq_range', hn]
        simp [List.range'_succ]
      rw [hdrop]
      have htr : (t0 :: rest).zip (List.range' 1 rest.length) =
          ((t0 :: rest).take rest.length).zip (List.range' 1 rest.length) := by
        have := zip_take_left_eq Nat (List.range' 1 rest.length) (t0 :: rest)
        simpa using this
      rw [htr]
      have hshift : List.range' 1 rest.length =
          (List.range' 0 rest.length).map (fun n => n + 1) := by
        rw [List.range'_eq_map_range, List.range'_eq_map_range]
        simp [Function.comp, Nat.add_comm]
      have hzip : ((t0 :: rest).take rest.length).zip (List.range' 1 rest.length) =
          (((t0 :: rest).take rest.length).zip (List.range' 0 rest.length)).map
            (fun pw => (pw.1, pw.2 + 1)) := by
        rw [hshift, List.zip_map_right]
        rfl
      have hlen0 : ((t0 :: rest).take rest.length).length = rest.length := by
        simp
      have hz0 : List.range' 0 rest.length =
          List.range' 0 ((t0 :: rest).take rest.length).length := by
        rw [hlen0]
      rw [hzip, hz0]
      rw [apply_writes_map_succ]
      rw [apply_writes_zip_range_zero _ rest (by simp)]
      simp [List.dropLast_eq_take]

/-- The head after `move_snake_system` is the pre-move head shifted one
cell in the facing direction; fruit, score and facing are untouched. -/
theorem move_snake_head_and_frame (s : GameState) :
    (move_snake_system s).headPos = move_head s.headPos s.facing ∧
    (move_snake_system s).fruit = s.fruit ∧
    (move_snake_system s).score = s.score ∧
    (move_snake_system s).facing = s.facing :=
  ⟨rfl, rfl, rfl, rfl⟩

/-! ## Startup state, ticks and reachability -/

/-- The game state produced by `startup` plus the `add_fruit_system` and
`add_snake_system` startup stages: score 0, empty tail chain, head at
the grid center facing `Facing::default()` (Up), fruit at a random cell
(draws `r1`, `r2`). -/
def initial_state (grid : Grid) (r1 r2 : Int) : GameState :=
  { headPos := Position.center grid.size,
    facing := Facing.default,
    tail := [],
    fruit := Position.random grid.size r1 r2,
    score := 0 }

/-- One movement tick in the fixed order move → collide → eat. `f` is
whatever facing the input-sampling cadence last wrote before the tick;
`r1`, `r2` are the rng draws consumed if a fruit is eaten; `none` is the
collision panic ending the session. -/
def tick (grid : Grid) (f : Facing) (r1 r2 : Int) (s : GameState) : Option GameState :=
  match collide_snake_system grid (move_snake_system { s with facing := f }) with
  | none => none
  | some s1 => some (eat_fruit_system grid s1 r1 r2)

/-- Number of fruit eaten during a tick from `s` with facing `f`: 1 when
the post-move head overlaps the fruit, else 0. -/
def ate (f : Facing) (s : GameState) : Nat :=
  if (move_snake_system { s with facing := f }).fruit
      = (move_snake_system { s with facing := f }).headPos then 1 else 0

/-- `Reachable grid s n`: state `s` is reachable from some startup state
by a sequence of surviving movement ticks during which exactly `n` fruit
were eaten. -/
inductive Reachable (grid : Grid) : GameState → Nat → Prop where
  | init : ∀ r1 r2 : Int, Reachable grid (initial_state grid r1 r2) 0
  | step : ∀ (s : GameState) (n : Nat) (f : Facing) (r1 r2 : Int) (s' : GameState),
      Reachable grid s n → tick grid f r1 r2 s = some s' →
      Reachable grid s' (n + ate f s)

/-- The collision check never alters the state it passes through. -/
theorem collide_eq_some (grid : Grid) (X Y : GameState)
    (h : collide_snake_system grid X = some Y) : Y = X := by
  rw [collide_snake_system] at h
  split at h
  · exact (Option.some.inj h).symm
  · exact Option.noConfusion h

/-- A surviving tick is the eat step applied to the moved state. -/
theorem tick_eq_some (grid : Grid) (f : Facing) (r1 r2 : Int) (s s' : GameState)
    (h : tick grid f r1 r2 s = some s') :
    s' = eat_fruit_system grid (move_snake_system { s with facing := f }) r1 r2 := by
  rw [tick] at h
  cases hcol : collide_snake_system grid (move_snake_system { s with facing := f }) with
  | none =>
      rw [hcol] at h
      exact Option.noConfusion h
  | some s1 =>
      rw [hcol] at h
      have hs1 : s1 = move_snake_system { s with facing := f } :=
        collide_eq_some grid _ s1 hcol
      rw [← Option.some.inj h, hs1]

/-- The movement step preserves the tail chain's length. -/
theorem move_tail_length (s : GameState) :
    (move_snake_system s).tail.length = s.tail.length := by
  rw [move_snake_tail_closed_form]
  cases s.tail with
  | nil => rfl
  | cons a l => simp

/-- The eat step adds one tail segment and one score point on overlap
and nothing otherwise. -/
theorem eat_fruit_effects (grid : Grid) (s : GameState) (r1 r2 : Int) :
    (eat_fruit_system grid s r1 r2).tail.length
      = s.tail.length + (if s.fruit = s.headPos then 1 else 0) ∧
    (eat_fruit_system grid s r1 r2).score
      = s.score + (if s.fruit = s.headPos then 1 else 0) := by
  by_cases h : s.fruit = s.headPos <;> simp [eat_fruit_system, h]

/-- Reachability invariant: tail length and score both equal the number
of fruit eaten so far. -/
theorem reachable_tail_score (grid : Grid) (s : GameState) (n : Nat)
    (h : Reachable grid s n) : s.tail.length = n ∧ s.score = n := by
  induction h with
  | init r1 r2 => exact ⟨rfl, rfl⟩
  | step s n f r1 r2 s' hr htick ih =>
      rcases ih with ⟨ht, hs⟩
      have hs' := tick_eq_some grid f r1 r2 s s' htick
      subst hs'
      rcases eat_fruit_effects grid (move_snake_system { s with facing := f }) r1 r2
        with ⟨he1, he2⟩
      rw [he1, he2, move_tail_length]
      constructor
      · show s.tail.length + ate f s = n + ate f s
        rw [ht]
      · show s.score + ate f s = n + ate f s
        rw [hs]

/-- A surviving tick never removes a tail segment nor decrements the
score. -/
theorem tick_monotone_aux (grid : Grid) (f : Facing) (r1 r2 : Int) (s s' : GameState)
    (h : tick grid f r1 r2 s = some s') :
    s.tail.length ≤ s'.tail.length ∧ s.score ≤ s'.score := by
  have hs' := tick_eq_some grid f r1 r2 s s' h
  subst hs'
  rcases eat_fruit_effects grid (move_snake_system { s with facing := f }) r1 r2
    with ⟨he1, he2⟩
  rw [he1, he2, move_tail_length]
  constructor
  · show s.tail.length ≤ s.tail.length + _
    exact Nat.le_add_right _ _
  · show s.score ≤ s.score + _
    exact Nat.le_add_right _ _

/-- C6: in every reachable state the tail length equals the number of
fruit eaten so far, which equals the score (starting from 0 at startup,
each consumption appending one segment and adding 1); and no tick ever
removes a segment or decrements the score. -/
theorem tail_length_eq_fruits_eaten_eq_score :
    (∀ (grid : Grid) (s : GameState) (n : Nat), Reachable grid s n →
      s.tail.length = n ∧ s.score = n) ∧
    (∀ (grid : Grid) (f : Facing) (r1 r2 : Int) (s s' : GameState),
      tick grid f r1 r2 s = some s' →
      s.tail.length ≤ s'.tail.length ∧ s.score ≤ s'.score) :=
  ⟨fun grid s n h => reachable_tail_score grid s n h,
   fun grid f r1 r2 s s' h => tick_monotone_aux grid f r1 r2 s s' h⟩

/-- Witness for C6 at the startup state of a 10×10 grid with rng draws
1, 2: tail length and score are both 0 there. -/
theorem tail_length_eq_fruits_eaten_eq_score_witness :
    (initial_state { cell_size := 10, size := { width := 10, height := 10 } } 1 2).tail.length
      = 0 ∧
    (initial_state { cell_size := 10, size := { width := 10, height := 10 } } 1 2).score
      = 0 :=
  tail_length_eq_fruits_eaten_eq_score.1
    { cell_size := 10, size := { width := 10, height := 10 } } _ 0 (Reachable.init 1 2)

/-! ## Fruit consumption -/

/-- A random position lands inside the grid whenever both grid
dimensions are positive, for every pair of rng draws. -/
theorem random_in_bounds (size : Size Int) (r1 r2 : Int)
    (hw : 0 < size.width) (hh : 0 < size.height) :
    (Position.random size r1 r2).in_bounds size = true := by
  simp only [Position.random, Position.in_bounds, gen_range, Bool.and_eq_true,
    decide_eq_true_eq]
  refine ⟨⟨⟨?_, ?_⟩, ?_⟩, ?_⟩
  · exact Int.emod_nonneg r1 (by omega)
  · exact Int.emod_nonneg r2 (by omega)
  · exact Int.emod_lt_of_pos r1 hw
  · exact Int.emod_lt_of_pos r2 hh

/-- C2 counterexample: grid 10×10, pre-move head at (4,5) facing Right,
empty tail, fruit at (5,5). After the move the head overlaps the fruit;
the eat step appends the new tail segment at (5,5) — the head's
*post-move* position — not at the pre-move position (4,5) the claim
requires. -/
theorem eat_fruit_appends_at_post_move_position :
    (move_snake_system
      { headPos := Position.new 4 5, facing := Facing.Right,
        tail := [], fruit := Position.new 5 5, score := 0 }).headPos
      = (move_snake_system
      { headPos := Position.new 4 5, facing := Facing.Right,
        tail := [], fruit := Position.new 5 5, score := 0 }).fruit ∧
    (eat_fruit_system { cell_size := 10, size := { width := 10, height := 10 } }
      (move_snake_system
        { headPos := Position.new 4 5, facing := Facing.Right,
          tail := [], fruit := Position.new 5 5, score := 0 }) 0 0).tail
      = [Position.new 5 5] ∧
    [Position.new 5 5] ≠ [Position.new 4 5] := by
  refine ⟨by decide, by decide, by decide⟩

/-- C2 (amended): when the post-move head overlaps the fruit on a grid
with positive dimensions, the eat step relocates the fruit to an
in-bounds cell (for every rng draw), increments the score by exactly 1,
and appends exactly one tail segment at the end of the chain, placed at
the head's *post-move* position (the cell where the fruit was). -/
theorem eat_fruit_growth (grid : Grid) (s : GameState) (r1 r2 : Int)
    (hw : 0 < grid.size.width) (hh : 0 < grid.size.height)
    (hover : (move_snake_system s).fruit = (move_snake_system s).headPos) :
    (eat_fruit_system grid (move_snake_system s) r1 r2).fruit.in_bounds grid.size = true ∧
    (eat_fruit_system grid (move_snake_system s) r1 r2).score
      = (move_snake_system s).score + 1 ∧
    (eat_fruit_system grid (move_snake_system s) r1 r2).tail
      = (move_snake_system s).tail ++ [(move_snake_system s).headPos] := by
  rw [eat_fruit_system, if_pos hover]
  exact ⟨random_in_bounds grid.size r1 r2 hw hh, rfl, rfl⟩

/-- Witness for C2's amended theorem at the counterexample scenario:
grid 10×10, pre-move head (4,5) facing Right, fruit (5,5), rng draws
13 and 17. -/
theorem eat_fruit_growth_witness :
    (eat_fruit_system { cell_size := 10, size := { width := 10, height := 10 } }
      (move_snake_system
        { headPos := Position.new 4 5, facing := Facing.Right,
          tail := [], fruit := Position.new 5 5, score := 0 }) 13 17).fruit.in_bounds
      { width := 10, height := 10 } = true ∧
    (eat_fruit_system { cell_size := 10, size := { width := 10, height := 10 } }
      (move_snake_system
        { headPos := Position.new 4 5, facing := Facing.Right,
          tail := [], fruit := Position.new 5 5, score := 0 }) 13 17).score
      = (move_snake_system
        { headPos := Position.new 4 5, facing := Facing.Right,
          tail := [], fruit := Position.new 5 5, score := 0 }).score + 1 ∧
    (eat_fruit_system { cell_size := 10, size := { width := 10, height := 10 } }
      (move_snake_system
        { headPos := Position.new 4 5, facing := Facing.Right,
          tail := [], fruit := Position.new 5 5, score := 0 }) 13 17).tail
      = (move_snake_system
        { headPos := Position.new 4 5, facing := Facing.Right,
          tail := [], fruit := Position.new 5 5, score := 0 }).tail ++
        [(move_snake_system
          { headPos := Position.new 4 5, facing := Facing.Right,
            tail := [], fruit := Position.new 5 5, score := 0 }).headPos] :=
  eat_fruit_growth { cell_size := 10, size := { width := 10, height := 10 } }
    { headPos := Position.new 4 5, facing := Facing.Right,
      tail := [], fruit := Position.new 5 5, score := 0 } 13 17
    (by decide) (by decide) (by decide)

/-- C5: `Position::in_bounds` is true iff `0 ≤ x < width` and
`0 ≤ y < height`; in particular it is false at `x = width` and at
`y = -1`. -/
theorem in_bounds_iff (p : Position) (size : Size Int) :
    (p.in_bounds size = true ↔
      (0 ≤ p.x ∧ p.x < size.width ∧ 0 ≤ p.y ∧ p.y < size.height)) ∧
    (p.x = size.width → p.in_bounds size = false) ∧
    (p.y = -1 → p.in_bounds size = false) := by
  refine ⟨?_, ?_, ?_⟩
  · simp [Position.in_bounds]
    tauto
  · intro hx
    simp [Position.in_bounds, hx]
  · intro hy
    simp [Position.in_bounds, hy]

/-- Witness for C5 at `p = (3, -1)`, `size = 5 × 7`. -/
theorem in_bounds_iff_witness :
    (Position.new 3 (-1)).in_bounds { width := 5, height := 7 } = false :=
  (in_bounds_iff (Position.new 3 (-1)) { width := 5, height := 7 }).2.2 rfl

/-- C7: `grid_to_real` returns exactly
`x = (-window_width + cell_width) / 2 + pos.x * cell_width` and
`y = (window_height - cell_height) / 2 - pos.y * cell_height`; it is a
total pure function (no side effects, no error cases) of its three
arguments. -/
theorem grid_to_real_formula (pos : Position) (cell_size window_size : Size ℚ) :
    grid_to_real pos cell_size window_size =
      { x := (-window_size.width + cell_size.width) / 2 + (pos.x : ℚ) * cell_size.width,
        y := (window_size.height - cell_size.height) / 2 - (pos.y : ℚ) * cell_size.height } :=
  rfl

/-- C1 (evaluation of the code at the failing input, the spec's own §8
scenario): grid 10×10, head at (5,5) facing Left, tail = [(5,6)]. After
one movement tick the head is at (4,5) as claimed, but tail segment 0 is
still at (5,6): the zip in `move_snake_system` skips the first tail
entity, so segment 0 is never written and the head's pre-move position
(5,5) is never propagated into the chain. -/
theorem move_snake_segment_zero_never_written :
    (move_snake_system
      { headPos := Position.new 5 5, facing := Facing.Left,
        tail := [Position.new 5 6], fruit := Position.new 0 0, score := 0 }).headPos
      = Position.new 4 5 ∧
    (move_snake_system
      { headPos := Position.new 5 5, facing := Facing.Left,
        tail := [Position.new 5 6], fruit := Position.new 0 0, score := 0 }).tail
      = [Position.new 5 6] ∧
    [Position.new 5 6] ≠ [Position.new 5 5] := by
  refine ⟨rfl, rfl, by decide⟩

/-- C9: the movement step is deterministic — two states agreeing on
facing, head position and the whole tail chain produce identical
post-move head positions and tail chains (the move step consults no
other state and no randomness). -/
theorem move_snake_deterministic (s t : GameState)
    (hf : s.facing = t.facing) (hh : s.headPos = t.headPos) (ht : s.tail = t.tail) :
    (move_snake_system s).headPos = (move_snake_system t).headPos ∧
    (move_snake_system s).tail = (move_snake_system t).tail := by
  constructor
  · show move_head s.headPos s.facing = move_head t.headPos t.facing
    rw [hf, hh]
  · show apply_writes s.tail (s.tail.zip ((List.range s.tail.length).drop 1)) =
      apply_writes t.tail (t.tail.zip ((List.range t.tail.length).drop 1))
    rw [ht]

/-- Witness for C9: two concrete states agreeing on facing, head and
tail but differing in fruit position and score. -/
theorem move_snake_deterministic_witness :
    (move_snake_system
      { headPos := Position.new 2 3, facing := Facing.Down,
        tail := [Position.new 2 2], fruit := Position.new 0 0, score := 0 }).headPos =
    (move_snake_system
      { headPos := Position.new 2 3, facing := Facing.Down,
        tail := [Position.new 2 2], fruit := Position.new 7 7, score := 5 }).headPos ∧
    (move_snake_system
      { headPos := Position.new 2 3, facing := Facing.Down,
        tail := [Position.new 2 2], fruit := Position.new 0 0, score := 0 }).tail =
    (move_snake_system
      { headPos := Position.new 2 3, facing := Facing.Down,
        tail := [Position.new 2 2], fruit := Position.new 7 7, score := 5 }).tail :=
  move_snake_deterministic _ _ rfl rfl rfl

/-- C3: when the head does not overlap the fruit, `eat_fruit_system` is
the identity — fruit position, scoreboard and the whole tail chain are
untouched. -/
theorem eat_fruit_no_overlap_frame (grid : Grid) (s : GameState) (r1 r2 : Int)
    (h : s.fruit ≠ s.headPos) :
    eat_fruit_system grid s r1 r2 = s := by
  simp [eat_fruit_system, h]

/-- Witness for C3: head at (1,1), fruit at (2,2). -/
theorem eat_fruit_no_overlap_frame_witness :
    eat_fruit_system
      { cell_size := 10, size := { width := 10, height := 10 } }
      { headPos := Position.new 1 1, facing := Facing.Up,
        tail := [], fruit := Position.new 2 2, score := 0 } 3 4 =
      { headPos := Position.new 1 1, facing := Facing.Up,
        tail := [], fruit := Position.new 2 2, score := 0 } :=
  eat_fruit_no_overlap_frame _ _ 3 4 (by decide)

/-- C4: `collide_snake_system` ends the session (the `panic!`, embedded
as `none`) iff the head is out of bounds — `x < 0 ∨ y < 0 ∨ x ≥ width ∨
y ≥ height`; when the head is in bounds it returns the state unchanged
and the session continues. -/
theorem collide_snake_game_over_iff (grid : Grid) (s : GameState) :
    (collide_snake_system grid s = none ↔
      (s.headPos.x < 0 ∨ s.headPos.y < 0 ∨
       s.headPos.x ≥ grid.size.width ∨ s.headPos.y ≥ grid.size.height)) ∧
    (s.headPos.in_bounds grid.size = true → collide_snake_system grid s = some s) := by
  constructor
  · constructor
    · intro h
      by_contra hc
      push_neg at hc
      have hb : s.headPos.in_bounds grid.size = true := by
        simp [Position.in_bounds]
        omega
      rw [collide_snake_system, if_pos hb] at h
      exact Option.noConfusion h
    · intro h
      have hb : ¬ s.headPos.in_bounds grid.size = true := by
        simp [Position.in_bounds]
        omega
      rw [collide_snake_system, if_neg hb]
  · intro h
    rw [collide_snake_system, if_pos h]

/-- Witness for C4: in-bounds head at (3,3) on a 10×10 grid survives
with the state unchanged. -/
theorem collide_snake_game_over_iff_witness :
    collide_snake_system
      { cell_size := 10, size := { width := 10, height := 10 } }
      { headPos := Position.new 3 3, facing := Facing.Up,
        tail := [], fruit := Position.new 2 2, score := 0 } =
      some
        { headPos := Position.new 3 3, facing := Facing.Up,
          tail := [], fruit := Position.new 2 2, score := 0 } :=
  (collide_snake_game_over_iff _ _).2 (by decide)

/-- The fold in `change_direction_system` keeps the facing given by the
last key (in iteration order) that `Facing::from_key_code` maps, and the
initial facing when no pressed key is mapped. -/
theorem change_direction_foldl (pressed : List KeyCode) :
    ∀ facing : Facing,
      change_direction_system pressed facing =
        ((pressed.filterMap Facing.from_key_code).getLast?).getD facing := by
  induction pressed with
  | nil => intro facing; rfl
  | cons c rest ih =>
      intro facing
      have hstep : change_direction_system (c :: rest) facing =
          change_direction_system rest
            (match Facing.from_key_code c with
             | some val => val
             | none => facing) := rfl
      rw [hstep]
      cases hc : Facing.from_key_code c with
      | none =>
          rw [ih]
          simp [List.filterMap_cons, hc]
      | some v =>
          rw [ih]
          simp only [List.filterMap_cons, hc]
          cases hrest : rest.filterMap Facing.from_key_code with
          | nil => simp
          | cons a t =>
              simp only [List.getLast?_cons_cons]
              rw [List.getLast?_eq_getLast (a :: t) (by simp)]
              rfl

/-- C8: the input-sampling step overwrites the facing once per mapped
pressed key with no early break, so the last mapped key in iteration
order wins and unmapped keys leave the facing unchanged; and
`Facing::from_key_code` sends each arrow / WASD / HJKL key to its
direction and everything else to `None`. -/
theorem change_direction_last_mapped_key_wins :
    (∀ (pressed : List KeyCode) (facing : Facing),
      change_direction_system pressed facing =
        ((pressed.filterMap Facing.from_key_code).getLast?).getD facing) ∧
    (Facing.from_key_code .Up = some .Up ∧
     Facing.from_key_code .W = some .Up ∧
     Facing.from_key_code .K = some .Up ∧
     Facing.from_key_code .Left = some .Left ∧
     Facing.from_key_code .A = some .Left ∧
     Facing.from_key_code .H = some .Left ∧
     Facing.from_key_code .Down = some .Down ∧
     Facing.from_key_code .S = some .Down ∧
     Facing.from_key_code .J = some .Down ∧
     Facing.from_key_code .Right = some .Right ∧
     Facing.from_key_code .D = some .Right ∧
     Facing.from_key_code .L = some .Right ∧
     Facing.from_key_code .Other = none) :=
  ⟨fun pressed facing => change_direction_foldl pressed facing, by decide⟩

/-- C10: `Facing::opposite` is an involution with no fixed point
(`Up ↔ Down`, `Left ↔ Right`), and `Facing::is_opposite` is symmetric. -/
theorem opposite_involution :
    (∀ d : Facing, d.opposite.opposite = d) ∧
    (∀ d : Facing, d.opposite ≠ d) ∧
    (∀ a b : Facing, a.is_opposite b = b.is_opposite a) := by
  refine ⟨?_, ?_, ?_⟩
  · intro d
    cases d <;> rfl
  · intro d
    cases d <;> simp [Facing.opposite]
  · intro a b
    cases a <;> cases b <;> rfl
